import Mathlib

/-!
# go-ghostscript: the binding's lifecycle, error classification and marshalling

A shallow embedding of `ghostscript/ghostscript.go`.

The Go package keeps one package-level boolean (`instantiated`) and calls into
the native Ghostscript library and the C allocator.  Here the package state and
the observable history of native calls are one explicit `World`, threaded
through every operation.  The native library is not part of the repository: it
is a parameter (`Native`) that answers each entry point with a return code
which may depend on the whole history of calls so far.
-/

set_option linter.dupNamespace false

namespace GoGhostscript

/-! ## Data model -/

/-! Native instance handles (`unsafe.Pointer`) and addresses on the C heap
(`*C.char`, `**C.char`) are natural numbers: the model only needs to tell two
of them apart. -/

/-- The Go struct `Revision`. -/
structure Revision where
  Product : String
  Copyright : String
  Revision : Int
  RevisionDate : Int
deriving DecidableEq, Repr

/-- The Go struct `Ghostscript`: it wraps the native instance pointer. -/
structure Ghostscript where
  inst : Nat
deriving DecidableEq, Repr

/-- The errors the package builds with `fmt.Errorf`, one constructor per format
string, carrying the value formatted into the message. -/
inductive GsError where
  /-- "revision structure size is incorrect, expected: %+v" -/
  | revisionSize (code : Int)
  /-- "unable to create a new instance of Ghostscript, an instance already exists" -/
  | alreadyExists
  /-- "Ghostscript interpreter version not supported: %d (must be >%d, and <%d)" -/
  | unsupportedVersion (rev : Int)
  /-- "unable to create a new instance of Ghostscript: %+v" -/
  | newInstanceFailed (code : Int)
  /-- "unable to initialise Ghostscript interpreter due to a fatal error, exiting: %+v" -/
  | initFatal (code : Int)
  /-- "unable to initialise Ghostscript interpreter: %+v" -/
  | initFailed (code : Int)
  /-- "unable to run Ghostscript interpreter due to a fatal error, exiting: %+v" -/
  | runFatal (code : Int)
  /-- "unable to run Ghostscript interpreter on string: %+v" -/
  | runStringFailed (code : Int)
  /-- "unable to run Ghostscript interpreter on file name: %+v" -/
  | runFileFailed (code : Int)
  /-- "unable to exit Ghostscript interpreter: %+v" -/
  | exitFailed (code : Int)
deriving DecidableEq, Repr

/-- One call that crossed the cgo boundary, with what it returned. -/
inductive Event where
  /-- `C.gsapi_revision` returned `code`. -/
  | gsapi_revision (code : Int)
  /-- `C.gsapi_new_instance` returned `code`; `h` is the handle it created, if any. -/
  | gsapi_new_instance (code : Int) (h : Option Nat)
  /-- `C.gsapi_delete_instance(h)`. -/
  | gsapi_delete_instance (h : Nat)
  /-- `C.gsapi_init_with_args(h, argc, argv)` returned `code`. -/
  | gsapi_init_with_args (h : Nat) (argv : List String) (code : Int)
  /-- `C.gsapi_run_string_with_length(h, doc, len, 0, &exitCode)` returned `code`. -/
  | gsapi_run_string_with_length (h : Nat) (doc : String) (len : Nat) (code : Int)
  /-- `C.gsapi_run_file(h, fn, 0, &exitCode)` returned `code`. -/
  | gsapi_run_file (h : Nat) (fn : String) (code : Int)
  /-- `C.gsapi_exit(h)` returned `code`. -/
  | gsapi_exit (h : Nat) (code : Int)
  /-- `C.calloc` returned the block `p`, an array of `n` pointers. -/
  | calloc (p : Nat) (n : Nat)
  /-- `C.CString(s)` allocated the block `p`. -/
  | cstring (p : Nat) (s : String)
  /-- `C.free(p)`. -/
  | free (p : Nat)
deriving DecidableEq, Repr

/-- The native library and its header `ierrors.h`, neither of which is in the
repository.  Every entry point answers with a return code that may depend on
the history of calls so far.  `gsapi_new_instance` creates a handle exactly
when it reports a code that is not negative. -/
structure Native where
  /-- The constant `e_Fatal` of `ierrors.h`. -/
  e_Fatal : Int
  gsapi_revision : List Event → Int × Revision
  gsapi_new_instance : List Event → Int
  gsapi_init_with_args : List Event → Nat → List String → Int
  gsapi_run_string_with_length : List Event → Nat → String → Nat → Int
  gsapi_run_file : List Event → Nat → String → Int
  gsapi_exit : List Event → Nat → Int

/-- The package state together with the state of the world outside it. -/
structure World where
  /-- The package variable `instantiated`. -/
  instantiated : Bool
  /-- Every native call so far, oldest first. -/
  trace : List Event
  /-- The next instance handle the native library hands out. -/
  nextHandle : Nat
  /-- The next block the C allocator hands out. -/
  nextPtr : Nat
  /-- The pointer arrays on the C heap: `mem a i` is the `i`-th entry of the array at `a`. -/
  mem : Nat → Nat → Nat

/-- The process at start: flag false, nothing called, nothing allocated. -/
def World.init : World :=
  { instantiated := false, trace := [], nextHandle := 0, nextPtr := 1, mem := fun _ _ => 0 }

/-! ## Constants -/

def MAX_SUPPORTED_REVISION : Int := 915
def MIN_SUPPORTED_REVISION : Int := 910
def GS_NO_ERRORS : Int := 0
/-- The Go constant `GS_FATAL_ERROR = C.e_Fatal`. -/
def GS_FATAL_ERROR (N : Native) : Int := N.e_Fatal

/-! ## The C allocator -/

/-- Record a call in the history. -/
def World.log (e : Event) (w : World) : World :=
  { w with trace := w.trace ++ [e] }

/-- The call `C.calloc(_, length)`: a fresh block holding `length` null pointers. -/
def calloc (length : Nat) (w : World) : Nat × World :=
  let p := w.nextPtr
  (p, { (w.log (.calloc p length)) with
          nextPtr := p + 1
          mem := fun a i => if a = p then 0 else w.mem a i })

/-- The call `C.CString(str)`: a fresh block holding a copy of `str`. -/
def CString (str : String) (w : World) : Nat × World :=
  let p := w.nextPtr
  (p, { (w.log (.cstring p str)) with nextPtr := p + 1 })

/-- The call `C.free(p)`. -/
def free (p : Nat) (w : World) : World :=
  w.log (.free p)

/-- The assignment `tmp[i] = p` into the array at `a`. -/
def store (a : Nat) (i : Nat) (p : Nat) (w : World) : World :=
  { w with mem := fun b j => if b = a ∧ j = i then p else w.mem b j }

/-! ## Marshalling -/

/-- The loop `for i, str := range goStrings { tmp[i] = C.CString(str) }`,
started at index `i`. -/
def CStrings.loop (charArray : Nat) : Nat → List String → World → World
  | _, [], w => w
  | i, str :: rest, w =>
    let (p, w1) := CString str w
    CStrings.loop charArray (i + 1) rest (store charArray i p w1)

/-- The Go function `CStrings`. -/
def CStrings (goStrings : List String) (w : World) : Nat × World :=
  let length := goStrings.length
  let (charArray, w1) := calloc length w
  (charArray, CStrings.loop charArray 0 goStrings w1)

/-- The Go function `FreeCStrings`. -/
def FreeCStrings (cStrings : Nat) (length : Nat) (w : World) : World :=
  let w1 := (List.range length).foldl (fun v i => free (v.mem cStrings i) v) w
  free cStrings w1

/-! ## The instantiation flag -/

def instantiate (w : World) : World := { w with instantiated := true }

def uninstantiate (w : World) : World := { w with instantiated := false }

def IsInstantiated (w : World) : Bool := w.instantiated

/-! ## Operations -/

/-- The Go function `GetRevision`. -/
def GetRevision (N : Native) (w : World) : (Revision × Option GsError) × World :=
  let revision : Revision := { Product := "", Copyright := "", Revision := 0, RevisionDate := 0 }
  let (err, gsapiRevision) := N.gsapi_revision w.trace
  let w1 := w.log (.gsapi_revision err)
  if err ≠ 0 then
    ((revision, some (.revisionSize err)), w1)
  else
    ((gsapiRevision, none), w1)

/-- The Go function `NewInstance`. -/
def NewInstance (N : Native) (w : World) : (Option Ghostscript × Option GsError) × World :=
  if IsInstantiated w then
    ((none, some .alreadyExists), w)
  else
    let ((rev, err), w1) := GetRevision N w
    match err with
    | some e => ((none, some e), w1)
    | none =>
      if rev.Revision < MIN_SUPPORTED_REVISION ∨ rev.Revision > MAX_SUPPORTED_REVISION then
        ((none, some (.unsupportedVersion rev.Revision)), w1)
      else
        let code := N.gsapi_new_instance w1.trace
        if code < GS_NO_ERRORS then
          ((none, some (.newInstanceFailed code)), w1.log (.gsapi_new_instance code none))
        else
          let h := w1.nextHandle
          let w2 := { (w1.log (.gsapi_new_instance code (some h))) with nextHandle := h + 1 }
          ((some { inst := h }, none), instantiate w2)

/-- The Go method `Destroy`. -/
def Destroy (gs : Ghostscript) (w : World) : World :=
  uninstantiate (w.log (.gsapi_delete_instance gs.inst))

/-- The Go method `Exit`. -/
def Exit (N : Native) (gs : Ghostscript) (w : World) : Option GsError × World :=
  let err := N.gsapi_exit w.trace gs.inst
  let w1 := w.log (.gsapi_exit gs.inst err)
  if err < GS_NO_ERRORS then (some (.exitFailed err), w1) else (none, w1)

/-- The Go method `Init`. -/
def Init (N : Native) (gs : Ghostscript) (args : List String) (w : World) :
    Option GsError × World :=
  let (cArgs, w1) := CStrings args w
  let err := N.gsapi_init_with_args w1.trace gs.inst args
  let w2 := w1.log (.gsapi_init_with_args gs.inst args err)
  if err ≤ GS_FATAL_ERROR N then
    let (_, w3) := Exit N gs w2
    (some (.initFatal err), FreeCStrings cArgs args.length w3)
  else if err < GS_NO_ERRORS then
    (some (.initFailed err), FreeCStrings cArgs args.length w2)
  else
    (none, FreeCStrings cArgs args.length w2)

/-- The Go method `RunOnString`. -/
def RunOnString (N : Native) (gs : Ghostscript) (strDoc : String) (w : World) :
    Option GsError × World :=
  let (gsStrDoc, w1) := CString strDoc w
  let err := N.gsapi_run_string_with_length w1.trace gs.inst strDoc strDoc.utf8ByteSize
  let w2 := w1.log (.gsapi_run_string_with_length gs.inst strDoc strDoc.utf8ByteSize err)
  if err ≤ GS_FATAL_ERROR N then
    let (_, w3) := Exit N gs w2
    (some (.runFatal err), free gsStrDoc w3)
  else if err < GS_NO_ERRORS then
    (some (.runStringFailed err), free gsStrDoc w2)
  else
    (none, free gsStrDoc w2)

/-- The Go method `RunOnFile`. -/
def RunOnFile (N : Native) (gs : Ghostscript) (fnDoc : String) (w : World) :
    Option GsError × World :=
  let (gsFnDoc, w1) := CString fnDoc w
  let err := N.gsapi_run_file w1.trace gs.inst fnDoc
  let w2 := w1.log (.gsapi_run_file gs.inst fnDoc err)
  if err ≤ GS_FATAL_ERROR N then
    let (_, w3) := Exit N gs w2
    (some (.runFatal err), free gsFnDoc w3)
  else if err < GS_NO_ERRORS then
    (some (.runFileFailed err), free gsFnDoc w2)
  else
    (none, free gsFnDoc w2)

/-! ## Observations on the history -/

/-- The events an operation added: the history of `w'` beyond that of `w`. -/
def newEvents (w w' : World) : List Event :=
  w'.trace.drop w.trace.length

/-- The handles `gsapi_new_instance` created, oldest first. -/
def created (tr : List Event) : List Nat :=
  tr.filterMap fun e =>
    match e with
    | .gsapi_new_instance _ (some h) => some h
    | _ => none

/-- The handles passed to `gsapi_delete_instance`, oldest first. -/
def deleted (tr : List Event) : List Nat :=
  tr.filterMap fun e =>
    match e with
    | .gsapi_delete_instance h => some h
    | _ => none

/-- The handles created and not yet deleted. -/
def liveHandles (tr : List Event) : List Nat :=
  (created tr).filter fun h => decide (h ∉ deleted tr)

/-- Whether the event is a call into the interpreter (not the C allocator). -/
def Event.isGsapi : Event → Bool
  | .calloc _ _ => false
  | .cstring _ _ => false
  | .free _ => false
  | _ => true

/-- The calls into the interpreter, oldest first. -/
def gsCalls (tr : List Event) : List Event :=
  tr.filter Event.isGsapi

/-- Whether the event is a call of `gsapi_exit`. -/
def Event.isExit : Event → Bool
  | .gsapi_exit _ _ => true
  | _ => false

/-- Whether the event is an allocation on the C heap. -/
def Event.isAlloc : Event → Bool
  | .calloc _ _ => true
  | .cstring _ _ => true
  | _ => false

/-- The blocks allocated on the C heap, oldest first. -/
def allocated (tr : List Event) : List Nat :=
  tr.filterMap fun e =>
    match e with
    | .calloc p _ => some p
    | .cstring p _ => some p
    | _ => none

/-- The blocks passed to `C.free`, oldest first. -/
def freed (tr : List Event) : List Nat :=
  tr.filterMap fun e =>
    match e with
    | .free p => some p
    | _ => none

/-- The code `gsapi_init_with_args` returns inside `Init gs args` called at `w`. -/
def initCode (N : Native) (gs : Ghostscript) (args : List String) (w : World) : Int :=
  N.gsapi_init_with_args (CStrings args w).2.trace gs.inst args

/-- The code `gsapi_run_string_with_length` returns inside `RunOnString gs strDoc` called at `w`. -/
def runStringCode (N : Native) (gs : Ghostscript) (strDoc : String) (w : World) : Int :=
  N.gsapi_run_string_with_length (CString strDoc w).2.trace gs.inst strDoc strDoc.utf8ByteSize

/-- The code `gsapi_run_file` returns inside `RunOnFile gs fnDoc` called at `w`. -/
def runFileCode (N : Native) (gs : Ghostscript) (fnDoc : String) (w : World) : Int :=
  N.gsapi_run_file (CString fnDoc w).2.trace gs.inst fnDoc

/-! ## Severity of a result -/

/-- The three bands of a native return code. -/
inductive Severity where
  | fatal
  | nonFatal
  | success
deriving DecidableEq, Repr

/-- The band an operation's result reports: the "due to a fatal error, exiting"
messages are fatal, the other messages of Init and the run operations are not. -/
def severity : Option GsError → Option Severity
  | none => some .success
  | some (.initFatal _) => some .fatal
  | some (.runFatal _) => some .fatal
  | some (.initFailed _) => some .nonFatal
  | some (.runStringFailed _) => some .nonFatal
  | some (.runFileFailed _) => some .nonFatal
  | some _ => none

/-- The classification in the words of the specification: at or below the fatal
threshold is fatal, below zero and above the threshold is non-fatal, zero or
above is success. -/
def classifyCode (fatalThreshold c : Int) : Severity :=
  if c ≤ fatalThreshold then .fatal
  else if c < 0 then .nonFatal
  else .success

/-! ## Sequences of NewInstance and Destroy -/

/-- One call of a caller that only creates and destroys. -/
inductive Op where
  | newInstance
  | destroy (gs : Ghostscript)
deriving DecidableEq, Repr

/-- Run one call.  A `Destroy` is run only on a value that an earlier successful
`NewInstance` returned; on any other value the call is not part of the sequences
considered and is skipped. -/
def applyOp (N : Native) (w : World) : Op → World
  | .newInstance => (NewInstance N w).2
  | .destroy gs => if gs.inst ∈ created w.trace then Destroy gs w else w

/-- Run the calls one at a time, in order. -/
def runOps (N : Native) (ops : List Op) (w : World) : World :=
  ops.foldl (applyOp N) w

/-- The handles the sequence destroys, in order, with repetitions. -/
def destroyTargets : List Op → List Nat
  | [] => []
  | .newInstance :: ops => destroyTargets ops
  | .destroy gs :: ops => gs.inst :: destroyTargets ops

/-! ## Goroutines inside NewInstance -/

/-- Where a goroutine stands inside `NewInstance`. -/
inductive Pc where
  /-- About to evaluate `IsInstantiated()`. -/
  | atCheck
  /-- The flag was read as false; about to call `GetRevision` and check the version. -/
  | atRevision
  /-- The version was accepted; about to call `gsapi_new_instance`. -/
  | atCreate
  /-- The handle `h` was created; about to run the deferred `instantiate()`. -/
  | atInstantiate (h : Nat)
  /-- The call returned. -/
  | returned (r : Option Ghostscript × Option GsError)
deriving DecidableEq, Repr

/-- One step of a goroutine running `NewInstance`: the statements of the
function body between two accesses to the shared state. -/
def NewInstance.step (N : Native) : Pc → World → Pc × World
  | .atCheck, w =>
    if IsInstantiated w then (.returned (none, some .alreadyExists), w) else (.atRevision, w)
  | .atRevision, w =>
    let ((rev, err), w1) := GetRevision N w
    match err with
    | some e => (.returned (none, some e), w1)
    | none =>
      if rev.Revision < MIN_SUPPORTED_REVISION ∨ rev.Revision > MAX_SUPPORTED_REVISION then
        (.returned (none, some (.unsupportedVersion rev.Revision)), w1)
      else (.atCreate, w1)
  | .atCreate, w =>
    let code := N.gsapi_new_instance w.trace
    if code < GS_NO_ERRORS then
      (.returned (none, some (.newInstanceFailed code)), w.log (.gsapi_new_instance code none))
    else
      let h := w.nextHandle
      (.atInstantiate h, { (w.log (.gsapi_new_instance code (some h))) with nextHandle := h + 1 })
  | .atInstantiate h, w => (.returned (some { inst := h }, none), instantiate w)
  | .returned r, w => (.returned r, w)

/-- Let one goroutine take `n` steps in a row. -/
def NewInstance.steps (N : Native) : Nat → Pc × World → Pc × World
  | 0, s => s
  | n + 1, s => NewInstance.steps N n (NewInstance.step N s.1 s.2)

/-- Goroutines that each run one call of `NewInstance`, sharing the world. -/
structure Sys where
  world : World
  threads : List Pc

/-- The scheduler lets goroutine `t` take its next step. -/
def Sys.step (N : Native) (s : Sys) (t : Nat) : Sys :=
  match s.threads[t]? with
  | none => s
  | some pc =>
    let (pc', w') := NewInstance.step N pc s.world
    { world := w', threads := s.threads.set t pc' }

/-- Run a schedule: the list of goroutines in the order they take their steps. -/
def Sys.run (N : Native) (sched : List Nat) (s : Sys) : Sys :=
  sched.foldl (Sys.step N) s

/-- The moment `n` goroutines have been started while no instance exists. -/
def Sys.start (n : Nat) : Sys :=
  { world := World.init, threads := List.replicate n .atCheck }

/-- Whether the goroutine's call returned a value and no error. -/
def Pc.succeeded : Pc → Bool
  | .returned (some _, none) => true
  | _ => false

/-- Whether the goroutine's call failed with "an instance already exists". -/
def Pc.rejected : Pc → Bool
  | .returned (none, some .alreadyExists) => true
  | _ => false

/-- Whether the goroutine's call has returned. -/
def Pc.finished : Pc → Bool
  | .returned _ => true
  | _ => false

/-! ## A native layer that reports success everywhere -/

/-- A native layer that reports revision 910, the fatal threshold -100 and code 0
from every entry point. -/
def okNative : Native :=
  { e_Fatal := -100
    gsapi_revision := fun _ =>
      (0, { Product := "GPL Ghostscript", Copyright := "", Revision := 910, RevisionDate := 20130829 })
    gsapi_new_instance := fun _ => 0
    gsapi_init_with_args := fun _ _ _ => 0
    gsapi_run_string_with_length := fun _ _ _ _ => 0
    gsapi_run_file := fun _ _ _ => 0
    gsapi_exit := fun _ _ => 0 }

/-- The native layer `okNative` with the revision number replaced by `r`. -/
def nativeWithRevision (r : Int) : Native :=
  { okNative with
    gsapi_revision := fun _ =>
      (0, { Product := "GPL Ghostscript", Copyright := "", Revision := r, RevisionDate := 20130829 }) }

/-- The native layer `okNative` with the code of `gsapi_init_with_args`,
`gsapi_run_string_with_length` and `gsapi_run_file` replaced by `c`. -/
def nativeWithCode (c : Int) : Native :=
  { okNative with
    gsapi_init_with_args := fun _ _ _ => c
    gsapi_run_string_with_length := fun _ _ _ _ => c
    gsapi_run_file := fun _ _ _ => c }

/-- The `C.CString` events of marshalling `strs` when the allocator's next block is `p`. -/
def cstringEvents : Nat → List String → List Event
  | _, [] => []
  | p, str :: rest => .cstring p str :: cstringEvents (p + 1) rest

/-- Whether the history holds a call of `gsapi_new_instance`. -/
def reachedCreation (tr : List Event) : Bool :=
  tr.any fun e =>
    match e with
    | .gsapi_new_instance _ _ => true
    | _ => false

/-- What every world reached by creating and destroying satisfies: the handles
created so far are distinct and below the native library's next handle, only
created handles were deleted, at most one handle is live, and none is live
while the flag is false. -/
def SingletonInv (w : World) : Prop :=
  (∀ h ∈ created w.trace, h < w.nextHandle)
  ∧ (∀ h ∈ deleted w.trace, h ∈ created w.trace)
  ∧ (created w.trace).Nodup
  ∧ (liveHandles w.trace).length ≤ 1
  ∧ (w.instantiated = false → liveHandles w.trace = [])

/-! # Theorems -/

/-! ## Helper lemmas -/

theorem newEvents_of_append {w w' : World} {l : List Event}
    (h : w'.trace = w.trace ++ l) : newEvents w w' = l := by
  simp [newEvents, h]

theorem loop_eq (a : Nat) (strs : List String) :
    ∀ (i : Nat) (w : World), CStrings.loop a i strs w =
      { instantiated := w.instantiated
        trace := w.trace ++ cstringEvents w.nextPtr strs
        nextHandle := w.nextHandle
        nextPtr := w.nextPtr + strs.length
        mem := fun b j =>
          if b = a ∧ i ≤ j ∧ j < i + strs.length then w.nextPtr + (j - i) else w.mem b j } := by
  induction strs with
  | nil =>
    intro i w
    cases w
    simp only [CStrings.loop, cstringEvents, List.append_nil, List.length_nil, Nat.add_zero]
    congr
    funext b j
    have h : ¬ (b = a ∧ i ≤ j ∧ j < i) := by omega
    simp [h]
  | cons str rest ih =>
    intro i w
    simp only [CStrings.loop, CString, store, World.log, ih, cstringEvents, List.length_cons]
    congr 1
    · simp
    · omega
    · funext b j
      by_cases hb : b = a
      · subst hb
        by_cases h1 : i + 1 ≤ j
        · have h2 : i ≤ j := by omega
          by_cases h4 : j < i + 1 + rest.length
          · have h5 : j < i + (rest.length + 1) := by omega
            simp only [h1, h2, h4, h5, and_self, if_true]; omega
          · have h5 : ¬ j < i + (rest.length + 1) := by omega
            have h6 : ¬ j = i := by omega
            simp [h1, h2, h4, h5, h6]
        · by_cases h2 : j = i
          · subst h2; simp
          · have h3 : ¬ i ≤ j := by omega
            simp [h1, h2, h3]
      · simp [hb]

theorem CStrings_eq (args : List String) (w : World) :
    CStrings args w = (w.nextPtr,
      { instantiated := w.instantiated
        trace := w.trace ++ .calloc w.nextPtr args.length :: cstringEvents (w.nextPtr + 1) args
        nextHandle := w.nextHandle
        nextPtr := w.nextPtr + 1 + args.length
        mem := fun b j =>
          if b = w.nextPtr ∧ j < args.length then w.nextPtr + 1 + j
          else if b = w.nextPtr then 0 else w.mem b j }) := by
  simp [CStrings, calloc, loop_eq, World.log]

theorem foldl_free_eq (c : Nat) (n : Nat) (w : World) :
    (List.range n).foldl (fun v i => free (v.mem c i) v) w =
      { w with trace := w.trace ++ (List.range n).map fun i => Event.free (w.mem c i) } := by
  induction n with
  | zero => simp
  | succ n ih =>
    rw [List.range_succ, List.foldl_append, ih]
    simp [free, World.log]

theorem FreeCStrings_eq (c : Nat) (n : Nat) (w : World) :
    FreeCStrings c n w =
      { w with trace := w.trace ++ ((List.range n).map fun i => Event.free (w.mem c i)) ++ [.free c] } := by
  unfold FreeCStrings
  rw [foldl_free_eq]
  simp [free, World.log]

theorem Init_fst (N : Native) (gs : Ghostscript) (args : List String) (w : World) :
    (Init N gs args w).1 =
      if initCode N gs args w ≤ N.e_Fatal then some (.initFatal (initCode N gs args w))
      else if initCode N gs args w < 0 then some (.initFailed (initCode N gs args w))
      else none := by
  unfold Init initCode
  simp only [GS_FATAL_ERROR, GS_NO_ERRORS]
  split <;> [rfl; (split <;> rfl)]

theorem RunOnString_fst (N : Native) (gs : Ghostscript) (strDoc : String) (w : World) :
    (RunOnString N gs strDoc w).1 =
      if runStringCode N gs strDoc w ≤ N.e_Fatal then some (.runFatal (runStringCode N gs strDoc w))
      else if runStringCode N gs strDoc w < 0 then
        some (.runStringFailed (runStringCode N gs strDoc w))
      else none := by
  unfold RunOnString runStringCode
  simp only [GS_FATAL_ERROR, GS_NO_ERRORS]
  split <;> [rfl; (split <;> rfl)]

theorem RunOnFile_fst (N : Native) (gs : Ghostscript) (fnDoc : String) (w : World) :
    (RunOnFile N gs fnDoc w).1 =
      if runFileCode N gs fnDoc w ≤ N.e_Fatal then some (.runFatal (runFileCode N gs fnDoc w))
      else if runFileCode N gs fnDoc w < 0 then some (.runFileFailed (runFileCode N gs fnDoc w))
      else none := by
  unfold RunOnFile runFileCode
  simp only [GS_FATAL_ERROR, GS_NO_ERRORS]
  split <;> [rfl; (split <;> rfl)]

/-- The history after `Init`: the allocations of `CStrings`, the native
initializer, the exit call when the code is fatal, the frees of `FreeCStrings`. -/
theorem Init_trace (N : Native) (gs : Ghostscript) (args : List String) (w : World) :
    (Init N gs args w).2.trace =
      w.trace ++ (.calloc w.nextPtr args.length :: cstringEvents (w.nextPtr + 1) args)
        ++ [.gsapi_init_with_args gs.inst args (initCode N gs args w)]
        ++ (if initCode N gs args w ≤ N.e_Fatal then
              [.gsapi_exit gs.inst (N.gsapi_exit
                ((CStrings args w).2.trace ++
                  [.gsapi_init_with_args gs.inst args (initCode N gs args w)]) gs.inst)]
            else [])
        ++ ((List.range args.length).map fun i => Event.free (w.nextPtr + 1 + i))
        ++ [.free w.nextPtr] := by
  have hmap : ∀ (f : Nat → Nat), (∀ i, i < args.length → f i = w.nextPtr + 1 + i) →
      (List.range args.length).map (fun i => Event.free (f i)) =
        (List.range args.length).map fun i => Event.free (w.nextPtr + 1 + i) := by
    intro f hf
    apply List.map_congr_left
    intro i hi
    rw [hf i (List.mem_range.mp hi)]
  unfold Init initCode
  simp only [GS_FATAL_ERROR, GS_NO_ERRORS, CStrings_eq, Exit, World.log, FreeCStrings_eq]
  split
  · split <;>
      simp only [List.append_assoc, List.cons_append, List.nil_append, List.append_cancel_left_eq,
        List.cons.injEq, true_and] <;>
      (congr 1; apply hmap; intro i hi; simp [hi])
  · split <;>
      simp only [List.append_assoc, List.cons_append, List.nil_append, List.append_cancel_left_eq,
        List.cons.injEq, true_and, List.append_nil] <;>
      (congr 1; apply hmap; intro i hi; simp [hi])

theorem RunOnString_trace (N : Native) (gs : Ghostscript) (strDoc : String) (w : World) :
    (RunOnString N gs strDoc w).2.trace =
      w.trace ++ [.cstring w.nextPtr strDoc]
        ++ [.gsapi_run_string_with_length gs.inst strDoc strDoc.utf8ByteSize
              (runStringCode N gs strDoc w)]
        ++ (if runStringCode N gs strDoc w ≤ N.e_Fatal then
              [.gsapi_exit gs.inst (N.gsapi_exit
                ((CString strDoc w).2.trace ++
                  [.gsapi_run_string_with_length gs.inst strDoc strDoc.utf8ByteSize
                    (runStringCode N gs strDoc w)]) gs.inst)]
            else [])
        ++ [.free w.nextPtr] := by
  unfold RunOnString runStringCode
  simp only [GS_FATAL_ERROR, GS_NO_ERRORS, CString, Exit, World.log, free]
  split
  · split <;> simp
  · split <;> simp

theorem RunOnFile_trace (N : Native) (gs : Ghostscript) (fnDoc : String) (w : World) :
    (RunOnFile N gs fnDoc w).2.trace =
      w.trace ++ [.cstring w.nextPtr fnDoc]
        ++ [.gsapi_run_file gs.inst fnDoc (runFileCode N gs fnDoc w)]
        ++ (if runFileCode N gs fnDoc w ≤ N.e_Fatal then
              [.gsapi_exit gs.inst (N.gsapi_exit
                ((CString fnDoc w).2.trace ++
                  [.gsapi_run_file gs.inst fnDoc (runFileCode N gs fnDoc w)]) gs.inst)]
            else [])
        ++ [.free w.nextPtr] := by
  unfold RunOnFile runFileCode
  simp only [GS_FATAL_ERROR, GS_NO_ERRORS, CString, Exit, World.log, free]
  split
  · split <;> simp
  · split <;> simp

theorem cstringEvents_eq_zipWith (strs : List String) :
    ∀ p : Nat, cstringEvents p strs = List.zipWith Event.cstring (List.range' p strs.length) strs := by
  induction strs with
  | nil => intro p; simp [cstringEvents]
  | cons str rest ih => intro p; simp [cstringEvents, ih, List.range'_succ]

theorem gsCalls_cstringEvents (strs : List String) :
    ∀ p : Nat, gsCalls (cstringEvents p strs) = [] := by
  induction strs with
  | nil => intro p; simp [cstringEvents, gsCalls]
  | cons str rest ih =>
    intro p
    have h := ih (p + 1)
    simp only [gsCalls] at h
    simp [cstringEvents, gsCalls, Event.isGsapi, h]

theorem isExit_cstringEvents (strs : List String) :
    ∀ p : Nat, (cstringEvents p strs).filter Event.isExit = [] := by
  induction strs with
  | nil => intro p; simp [cstringEvents]
  | cons str rest ih => intro p; simp [cstringEvents, Event.isExit, ih]

theorem isAlloc_cstringEvents (strs : List String) :
    ∀ p : Nat, (cstringEvents p strs).filter Event.isAlloc = cstringEvents p strs := by
  induction strs with
  | nil => intro p; simp [cstringEvents]
  | cons str rest ih => intro p; simp [cstringEvents, Event.isAlloc, ih]

theorem allocated_cstringEvents (strs : List String) :
    ∀ p : Nat, allocated (cstringEvents p strs) = List.range' p strs.length := by
  induction strs with
  | nil => intro p; simp [cstringEvents, allocated]
  | cons str rest ih =>
    intro p
    have h := ih (p + 1)
    simp only [allocated] at h
    simp [cstringEvents, allocated, h, List.range'_succ]

theorem freed_cstringEvents (strs : List String) :
    ∀ p : Nat, freed (cstringEvents p strs) = [] := by
  induction strs with
  | nil => intro p; simp [cstringEvents, freed]
  | cons str rest ih =>
    intro p
    have h := ih (p + 1)
    simp only [freed] at h
    simp [cstringEvents, freed, h]

theorem gsCalls_frees (f : Nat → Nat) (l : List Nat) :
    gsCalls (l.map fun i => Event.free (f i)) = [] := by
  induction l with
  | nil => simp [gsCalls]
  | cons a l ih => simp only [gsCalls] at ih; simp [gsCalls, Event.isGsapi, ih]

theorem isExit_frees (f : Nat → Nat) (l : List Nat) :
    (l.map fun i => Event.free (f i)).filter Event.isExit = [] := by
  induction l with
  | nil => simp
  | cons a l ih => simp [Event.isExit, ih]

theorem isAlloc_frees (f : Nat → Nat) (l : List Nat) :
    (l.map fun i => Event.free (f i)).filter Event.isAlloc = [] := by
  induction l with
  | nil => simp
  | cons a l ih => simp [Event.isAlloc, ih]

theorem allocated_frees (f : Nat → Nat) (l : List Nat) :
    allocated (l.map fun i => Event.free (f i)) = [] := by
  induction l with
  | nil => simp [allocated]
  | cons a l ih => simp only [allocated] at ih; simp [allocated, ih]

theorem freed_frees (f : Nat → Nat) (l : List Nat) :
    freed (l.map fun i => Event.free (f i)) = l.map f := by
  induction l with
  | nil => simp [freed]
  | cons a l ih => simp only [freed] at ih; simp [freed, ih]

theorem map_range_add (p n : Nat) :
    (List.range n).map (fun i => p + i) = List.range' p n := by
  rw [List.range_eq_range']
  simp [List.map_add_range']

theorem severity_classify (F c : Int) (fatalErr nonFatalErr : Int → GsError)
    (h1 : ∀ x, severity (some (fatalErr x)) = some .fatal)
    (h2 : ∀ x, severity (some (nonFatalErr x)) = some .nonFatal) :
    severity (if c ≤ F then some (fatalErr c) else if c < 0 then some (nonFatalErr c) else none)
      = some (classifyCode F c) := by
  unfold classifyCode
  split
  · exact h1 c
  · split
    · exact h2 c
    · rfl

theorem isSome_classify (F c : Int) (hF : F < 0) (fatalErr nonFatalErr : Int → GsError) :
    (if c ≤ F then some (fatalErr c) else if c < 0 then some (nonFatalErr c) else none).isSome = true
      ↔ c < 0 := by
  split
  · simp; omega
  · split <;> simp <;> omega

/-! ## Error-code classification (C3) -/

/-- C3. With the fatal threshold `e_Fatal` of the native header negative, `Init`,
`RunOnString` and `RunOnFile` each return their fatal error when the native
code `c` is at or below the threshold, their non-fatal error when the code is
above the threshold and below zero, and no error when the code is zero or
above; the three bands are exhaustive and exclusive, each operation returns an
error exactly when its code is negative, and the band every operation reports
is the band `classifyCode` of its code. -/
theorem error_code_classification (N : Native) (hF : N.e_Fatal < 0) (gs : Ghostscript)
    (args : List String) (strDoc fnDoc : String) (w : World) :
    ((Init N gs args w).1 =
        (if initCode N gs args w ≤ GS_FATAL_ERROR N then
          some (.initFatal (initCode N gs args w))
        else if initCode N gs args w < 0 then some (.initFailed (initCode N gs args w))
        else none)
      ∧ (RunOnString N gs strDoc w).1 =
        (if runStringCode N gs strDoc w ≤ GS_FATAL_ERROR N then
          some (.runFatal (runStringCode N gs strDoc w))
        else if runStringCode N gs strDoc w < 0 then
          some (.runStringFailed (runStringCode N gs strDoc w))
        else none)
      ∧ (RunOnFile N gs fnDoc w).1 =
        (if runFileCode N gs fnDoc w ≤ GS_FATAL_ERROR N then
          some (.runFatal (runFileCode N gs fnDoc w))
        else if runFileCode N gs fnDoc w < 0 then
          some (.runFileFailed (runFileCode N gs fnDoc w))
        else none))
    ∧ (severity (Init N gs args w).1 = some (classifyCode (GS_FATAL_ERROR N) (initCode N gs args w))
      ∧ severity (RunOnString N gs strDoc w).1 =
          some (classifyCode (GS_FATAL_ERROR N) (runStringCode N gs strDoc w))
      ∧ severity (RunOnFile N gs fnDoc w).1 =
          some (classifyCode (GS_FATAL_ERROR N) (runFileCode N gs fnDoc w)))
    ∧ (((Init N gs args w).1.isSome = true ↔ initCode N gs args w < 0)
      ∧ ((RunOnString N gs strDoc w).1.isSome = true ↔ runStringCode N gs strDoc w < 0)
      ∧ ((RunOnFile N gs fnDoc w).1.isSome = true ↔ runFileCode N gs fnDoc w < 0))
    ∧ (∀ c : Int,
        (classifyCode (GS_FATAL_ERROR N) c = .fatal ↔ c ≤ GS_FATAL_ERROR N)
        ∧ (classifyCode (GS_FATAL_ERROR N) c = .nonFatal ↔ GS_FATAL_ERROR N < c ∧ c < 0)
        ∧ (classifyCode (GS_FATAL_ERROR N) c = .success ↔ 0 ≤ c)) := by
  simp only [GS_FATAL_ERROR]
  refine ⟨⟨Init_fst N gs args w, RunOnString_fst N gs strDoc w, RunOnFile_fst N gs fnDoc w⟩,
    ⟨?_, ?_, ?_⟩, ⟨?_, ?_, ?_⟩, ?_⟩
  · rw [Init_fst]; exact severity_classify _ _ _ _ (fun _ => rfl) (fun _ => rfl)
  · rw [RunOnString_fst]; exact severity_classify _ _ _ _ (fun _ => rfl) (fun _ => rfl)
  · rw [RunOnFile_fst]; exact severity_classify _ _ _ _ (fun _ => rfl) (fun _ => rfl)
  · rw [Init_fst]; exact isSome_classify _ _ hF _ _
  · rw [RunOnString_fst]; exact isSome_classify _ _ hF _ _
  · rw [RunOnFile_fst]; exact isSome_classify _ _ hF _ _
  · intro c
    unfold classifyCode
    refine ⟨?_, ?_, ?_⟩
    · split
      · simp [*]
      · split <;> simp [*]
    · split
      · simp; omega
      · split <;> simp <;> omega
    · split
      · simp; omega
      · split <;> simp <;> omega

/-- C3, at a concrete input: the native header's threshold -100 and the code -7
(non-fatal) from every entry point. -/
theorem error_code_classification_witness :
    (nativeWithCode (-7)).e_Fatal < 0
    ∧ (Init (nativeWithCode (-7)) ⟨0⟩ ["gs", "-q"] World.init).1 = some (.initFailed (-7))
    ∧ (RunOnString (nativeWithCode (-7)) ⟨0⟩ "showpage" World.init).1 = some (.runStringFailed (-7))
    ∧ (RunOnFile (nativeWithCode (-7)) ⟨0⟩ "in.ps" World.init).1 = some (.runFileFailed (-7)) := by
  have hF : (nativeWithCode (-7)).e_Fatal < 0 := by decide
  have h := (error_code_classification (nativeWithCode (-7)) hF ⟨0⟩ ["gs", "-q"]
    "showpage" "in.ps" World.init).1
  refine ⟨hF, ?_, ?_, ?_⟩
  · rw [h.1]; decide
  · rw [h.2.1]; decide
  · rw [h.2.2]; decide

theorem Init_newEvents (N : Native) (gs : Ghostscript) (args : List String) (w : World) :
    newEvents w (Init N gs args w).2 =
      (.calloc w.nextPtr args.length :: cstringEvents (w.nextPtr + 1) args)
        ++ [.gsapi_init_with_args gs.inst args (initCode N gs args w)]
        ++ (if initCode N gs args w ≤ N.e_Fatal then
              [.gsapi_exit gs.inst (N.gsapi_exit
                ((CStrings args w).2.trace ++
                  [.gsapi_init_with_args gs.inst args (initCode N gs args w)]) gs.inst)]
            else [])
        ++ ((List.range args.length).map fun i => Event.free (w.nextPtr + 1 + i))
        ++ [.free w.nextPtr] := by
  apply newEvents_of_append
  rw [Init_trace]
  simp only [List.append_assoc]

theorem RunOnString_newEvents (N : Native) (gs : Ghostscript) (strDoc : String) (w : World) :
    newEvents w (RunOnString N gs strDoc w).2 =
      [.cstring w.nextPtr strDoc]
        ++ [.gsapi_run_string_with_length gs.inst strDoc strDoc.utf8ByteSize
              (runStringCode N gs strDoc w)]
        ++ (if runStringCode N gs strDoc w ≤ N.e_Fatal then
              [.gsapi_exit gs.inst (N.gsapi_exit
                ((CString strDoc w).2.trace ++
                  [.gsapi_run_string_with_length gs.inst strDoc strDoc.utf8ByteSize
                    (runStringCode N gs strDoc w)]) gs.inst)]
            else [])
        ++ [.free w.nextPtr] := by
  apply newEvents_of_append
  rw [RunOnString_trace]
  simp only [List.append_assoc]

theorem RunOnFile_newEvents (N : Native) (gs : Ghostscript) (fnDoc : String) (w : World) :
    newEvents w (RunOnFile N gs fnDoc w).2 =
      [.cstring w.nextPtr fnDoc]
        ++ [.gsapi_run_file gs.inst fnDoc (runFileCode N gs fnDoc w)]
        ++ (if runFileCode N gs fnDoc w ≤ N.e_Fatal then
              [.gsapi_exit gs.inst (N.gsapi_exit
                ((CString fnDoc w).2.trace ++
                  [.gsapi_run_file gs.inst fnDoc (runFileCode N gs fnDoc w)]) gs.inst)]
            else [])
        ++ [.free w.nextPtr] := by
  apply newEvents_of_append
  rw [RunOnFile_trace]
  simp only [List.append_assoc]

/-! ## Automatic exit on a fatal code (C4) -/

/-- C4. For every native layer, value, argument list, document and world: the
calls `Init` makes into the interpreter are `gsapi_init_with_args` followed by
one `gsapi_exit` when the code is at or below `GS_FATAL_ERROR`, and
`gsapi_init_with_args` alone when it is above; the number of `gsapi_exit` calls
is 1 or 0 accordingly; and on the fatal path the result is the fatal error,
whatever code the exit call returned.  The same holds for `RunOnString` and
`RunOnFile` with their native calls. -/
theorem automatic_exit_on_fatal (N : Native) (gs : Ghostscript) (args : List String)
    (strDoc fnDoc : String) (w : World) :
    ((∃ ec : Int, gsCalls (newEvents w (Init N gs args w).2) =
          .gsapi_init_with_args gs.inst args (initCode N gs args w) ::
            (if initCode N gs args w ≤ GS_FATAL_ERROR N then [.gsapi_exit gs.inst ec] else []))
      ∧ ((newEvents w (Init N gs args w).2).filter Event.isExit).length =
          (if initCode N gs args w ≤ GS_FATAL_ERROR N then 1 else 0)
      ∧ (initCode N gs args w ≤ GS_FATAL_ERROR N →
          (Init N gs args w).1 = some (.initFatal (initCode N gs args w))))
    ∧ ((∃ ec : Int, gsCalls (newEvents w (RunOnString N gs strDoc w).2) =
          .gsapi_run_string_with_length gs.inst strDoc strDoc.utf8ByteSize
              (runStringCode N gs strDoc w) ::
            (if runStringCode N gs strDoc w ≤ GS_FATAL_ERROR N then [.gsapi_exit gs.inst ec]
             else []))
      ∧ ((newEvents w (RunOnString N gs strDoc w).2).filter Event.isExit).length =
          (if runStringCode N gs strDoc w ≤ GS_FATAL_ERROR N then 1 else 0)
      ∧ (runStringCode N gs strDoc w ≤ GS_FATAL_ERROR N →
          (RunOnString N gs strDoc w).1 = some (.runFatal (runStringCode N gs strDoc w))))
    ∧ ((∃ ec : Int, gsCalls (newEvents w (RunOnFile N gs fnDoc w).2) =
          .gsapi_run_file gs.inst fnDoc (runFileCode N gs fnDoc w) ::
            (if runFileCode N gs fnDoc w ≤ GS_FATAL_ERROR N then [.gsapi_exit gs.inst ec]
             else []))
      ∧ ((newEvents w (RunOnFile N gs fnDoc w).2).filter Event.isExit).length =
          (if runFileCode N gs fnDoc w ≤ GS_FATAL_ERROR N then 1 else 0)
      ∧ (runFileCode N gs fnDoc w ≤ GS_FATAL_ERROR N →
          (RunOnFile N gs fnDoc w).1 = some (.runFatal (runFileCode N gs fnDoc w)))) := by
  simp only [GS_FATAL_ERROR]
  refine ⟨⟨?_, ?_, ?_⟩, ⟨?_, ?_, ?_⟩, ⟨?_, ?_, ?_⟩⟩
  · refine ⟨N.gsapi_exit ((CStrings args w).2.trace ++
      [.gsapi_init_with_args gs.inst args (initCode N gs args w)]) gs.inst, ?_⟩
    rw [Init_newEvents]
    have h1 := gsCalls_cstringEvents args (w.nextPtr + 1)
    have h2 := gsCalls_frees (fun i => w.nextPtr + 1 + i) (List.range args.length)
    simp only [gsCalls] at h1 h2 ⊢
    split <;> simp [Event.isGsapi, h1, h2]
  · rw [Init_newEvents]
    have h1 := isExit_cstringEvents args (w.nextPtr + 1)
    have h2 := isExit_frees (fun i => w.nextPtr + 1 + i) (List.range args.length)
    split <;> simp [Event.isExit, h1, h2]
  · intro h; rw [Init_fst, if_pos h]
  · refine ⟨N.gsapi_exit ((CString strDoc w).2.trace ++
      [.gsapi_run_string_with_length gs.inst strDoc strDoc.utf8ByteSize
        (runStringCode N gs strDoc w)]) gs.inst, ?_⟩
    rw [RunOnString_newEvents]
    simp only [gsCalls]
    split <;> simp [Event.isGsapi]
  · rw [RunOnString_newEvents]
    split <;> simp [Event.isExit]
  · intro h; rw [RunOnString_fst, if_pos h]
  · refine ⟨N.gsapi_exit ((CString fnDoc w).2.trace ++
      [.gsapi_run_file gs.inst fnDoc (runFileCode N gs fnDoc w)]) gs.inst, ?_⟩
    rw [RunOnFile_newEvents]
    simp only [gsCalls]
    split <;> simp [Event.isGsapi]
  · rw [RunOnFile_newEvents]
    split <;> simp [Event.isExit]
  · intro h; rw [RunOnFile_fst, if_pos h]

/-- C4, at a concrete input: the fatal threshold -100 and the code -100 from
`gsapi_init_with_args`. -/
theorem automatic_exit_on_fatal_witness :
    initCode (nativeWithCode (-100)) ⟨0⟩ ["gs", "-q"] World.init
        ≤ GS_FATAL_ERROR (nativeWithCode (-100))
    ∧ (Init (nativeWithCode (-100)) ⟨0⟩ ["gs", "-q"] World.init).1 = some (.initFatal (-100))
    ∧ ((newEvents World.init (Init (nativeWithCode (-100)) ⟨0⟩ ["gs", "-q"] World.init).2).filter
        Event.isExit).length = 1 := by
  have hc : initCode (nativeWithCode (-100)) ⟨0⟩ ["gs", "-q"] World.init
      ≤ GS_FATAL_ERROR (nativeWithCode (-100)) := by decide
  have h := (automatic_exit_on_fatal (nativeWithCode (-100)) ⟨0⟩ ["gs", "-q"] "" ""
    World.init).1
  refine ⟨hc, ?_, ?_⟩
  · rw [h.2.2 hc]; decide
  · rw [h.2.1, if_pos hc]

theorem Init_allocated (N : Native) (gs : Ghostscript) (args : List String) (w : World) :
    allocated (newEvents w (Init N gs args w).2) = List.range' w.nextPtr (args.length + 1) := by
  rw [Init_newEvents]
  have h1 := allocated_cstringEvents args (w.nextPtr + 1)
  have h2 := allocated_frees (fun i => w.nextPtr + 1 + i) (List.range args.length)
  simp only [allocated] at h1 h2 ⊢
  rw [List.range'_succ]
  split <;> simp [h1, h2]

theorem Init_freed (N : Native) (gs : Ghostscript) (args : List String) (w : World) :
    freed (newEvents w (Init N gs args w).2) =
      List.range' (w.nextPtr + 1) args.length ++ [w.nextPtr] := by
  rw [Init_newEvents]
  have h1 := freed_cstringEvents args (w.nextPtr + 1)
  have h2 := freed_frees (fun i => w.nextPtr + 1 + i) (List.range args.length)
  rw [map_range_add] at h2
  simp only [freed] at h1 h2 ⊢
  split <;> simp [h1, h2]

/-! ## The argument buffer (C10) -/

/-- C10. For every native layer, value, argument list and world, hence on
every return code: the allocations `Init` makes are the pointer array of
`len(args)` entries followed by one C string per argument, in order; they are
`len(args) + 1` distinct blocks; and the blocks `Init` frees are exactly those
blocks, each freed once. -/
theorem argument_buffer_released_once (N : Native) (gs : Ghostscript) (args : List String)
    (w : World) :
    (newEvents w (Init N gs args w).2).filter Event.isAlloc =
        .calloc w.nextPtr args.length ::
          List.zipWith Event.cstring (List.range' (w.nextPtr + 1) args.length) args
    ∧ (allocated (newEvents w (Init N gs args w).2)).length = args.length + 1
    ∧ (allocated (newEvents w (Init N gs args w).2)).Nodup
    ∧ (freed (newEvents w (Init N gs args w).2)).Nodup
    ∧ (freed (newEvents w (Init N gs args w).2)).Perm
        (allocated (newEvents w (Init N gs args w).2)) := by
  have hperm : (List.range' (w.nextPtr + 1) args.length ++ [w.nextPtr]).Perm
      (List.range' w.nextPtr (args.length + 1)) := by
    rw [List.range'_succ]
    exact List.perm_append_singleton _ _
  refine ⟨?_, ?_, ?_, ?_, ?_⟩
  · rw [Init_newEvents, ← cstringEvents_eq_zipWith]
    have h1 := isAlloc_cstringEvents args (w.nextPtr + 1)
    have h2 := isAlloc_frees (fun i => w.nextPtr + 1 + i) (List.range args.length)
    split <;> simp [Event.isAlloc, h1, h2]
  · rw [Init_allocated]; simp
  · rw [Init_allocated]; exact List.nodup_range' _ _
  · rw [Init_freed]
    exact hperm.nodup_iff.mpr (List.nodup_range' _ _)
  · rw [Init_freed, Init_allocated]
    exact hperm

/-! ## Destroy (C5) -/

/-- C5. For every value and every world, whatever the flag was and whatever
happened to the value before: after `Destroy` the flag is false, and `Destroy`
made one native call, `gsapi_delete_instance` on the value's handle. -/
theorem destroy_clears_flag (gs : Ghostscript) (w : World) :
    IsInstantiated (Destroy gs w) = false
    ∧ newEvents w (Destroy gs w) = [.gsapi_delete_instance gs.inst] := by
  refine ⟨rfl, ?_⟩
  apply newEvents_of_append
  rfl

/-! ## NewInstance -/

theorem NewInstance_of_flag (N : Native) (w : World) (hflag : IsInstantiated w = true) :
    NewInstance N w = ((none, some .alreadyExists), w) := by
  simp [NewInstance, hflag]

theorem NewInstance_of_revision (N : Native) (w : World) (rev : Revision)
    (hflag : IsInstantiated w = false) (hq : N.gsapi_revision w.trace = (0, rev)) :
    NewInstance N w =
      if rev.Revision < 910 ∨ rev.Revision > 915 then
        ((none, some (.unsupportedVersion rev.Revision)), w.log (.gsapi_revision 0))
      else if N.gsapi_new_instance (w.trace ++ [.gsapi_revision 0]) < 0 then
        ((none, some (.newInstanceFailed (N.gsapi_new_instance (w.trace ++ [.gsapi_revision 0])))),
          (w.log (.gsapi_revision 0)).log
            (.gsapi_new_instance (N.gsapi_new_instance (w.trace ++ [.gsapi_revision 0])) none))
      else
        ((some { inst := w.nextHandle }, none),
          instantiate { ((w.log (.gsapi_revision 0)).log
            (.gsapi_new_instance (N.gsapi_new_instance (w.trace ++ [.gsapi_revision 0]))
              (some w.nextHandle))) with nextHandle := w.nextHandle + 1 }) := by
  simp only [NewInstance, hflag, GetRevision, hq, World.log, MIN_SUPPORTED_REVISION,
    MAX_SUPPORTED_REVISION, GS_NO_ERRORS]
  simp

/-- C6. Whenever the flag is true, for every native layer: `NewInstance`
returns no value and the "an instance already exists" error, makes no native
call (so neither the revision query nor the instance creation), and leaves the
flag true. -/
theorem already_instantiated_rejection (N : Native) (w : World)
    (hflag : IsInstantiated w = true) :
    (NewInstance N w).1 = (none, some .alreadyExists)
    ∧ newEvents w (NewInstance N w).2 = []
    ∧ IsInstantiated (NewInstance N w).2 = true := by
  rw [NewInstance_of_flag N w hflag]
  exact ⟨rfl, by simp [newEvents], hflag⟩

/-- C6, at a concrete input: the world right after a first successful `NewInstance`. -/
theorem already_instantiated_rejection_witness :
    IsInstantiated (NewInstance okNative World.init).2 = true
    ∧ (NewInstance okNative (NewInstance okNative World.init).2).1 = (none, some .alreadyExists) :=
  ⟨by decide, (already_instantiated_rejection okNative (NewInstance okNative World.init).2
    (by decide)).1⟩

/-- C7, as the code has it. With the flag clear and a successful revision
query reporting revision `r`, `NewInstance` goes on to `gsapi_new_instance`
exactly when `MIN_SUPPORTED_REVISION ≤ r ≤ MAX_SUPPORTED_REVISION`, that is
`910 ≤ r ≤ 915`, both bounds included; for every other `r` it fails with the
unsupported-version error. -/
theorem supported_version_gate (N : Native) (w : World) (rev : Revision)
    (hflag : IsInstantiated w = false) (hq : N.gsapi_revision w.trace = (0, rev)) :
    (MIN_SUPPORTED_REVISION = 910 ∧ MAX_SUPPORTED_REVISION = 915)
    ∧ (reachedCreation (newEvents w (NewInstance N w).2) = true
        ↔ 910 ≤ rev.Revision ∧ rev.Revision ≤ 915)
    ∧ (¬ (910 ≤ rev.Revision ∧ rev.Revision ≤ 915) →
        (NewInstance N w).1 = (none, some (.unsupportedVersion rev.Revision))) := by
  refine ⟨⟨rfl, rfl⟩, ?_, ?_⟩
  · rw [NewInstance_of_revision N w rev hflag hq]
    by_cases h : rev.Revision < 910 ∨ rev.Revision > 915
    · rw [if_pos h]
      have h' : ¬ (910 ≤ rev.Revision ∧ rev.Revision ≤ 915) := by omega
      simp only [h', iff_false]
      simp [newEvents, World.log, reachedCreation]
    · rw [if_neg h]
      have h' : 910 ≤ rev.Revision ∧ rev.Revision ≤ 915 := by omega
      simp only [h', and_self, iff_true]
      split <;> simp [newEvents, World.log, reachedCreation, instantiate]
  · intro h
    rw [NewInstance_of_revision N w rev hflag hq]
    have h' : rev.Revision < 910 ∨ rev.Revision > 915 := by omega
    rw [if_pos h']

/-- C7 amended, at a concrete input: revision 915 at process start. -/
theorem supported_version_gate_witness :
    IsInstantiated World.init = false
    ∧ (nativeWithRevision 915).gsapi_revision World.init.trace =
        (0, { Product := "GPL Ghostscript", Copyright := "", Revision := 915,
              RevisionDate := 20130829 })
    ∧ reachedCreation
        (newEvents World.init (NewInstance (nativeWithRevision 915) World.init).2) = true :=
  ⟨rfl, rfl,
    ((supported_version_gate (nativeWithRevision 915) World.init
      { Product := "GPL Ghostscript", Copyright := "", Revision := 915, RevisionDate := 20130829 }
      rfl rfl).2.1).mpr (by decide)⟩

/-- C7 as stated fails at revision 915: the flag is clear, the revision query
succeeds and reports 915, which is not below 915, and yet `NewInstance` goes on
to `gsapi_new_instance` and returns a value instead of the unsupported-version
error. -/
theorem supported_version_gate_counterexample :
    IsInstantiated World.init = false
    ∧ (nativeWithRevision 915).gsapi_revision World.init.trace =
        (0, { Product := "GPL Ghostscript", Copyright := "", Revision := 915,
              RevisionDate := 20130829 })
    ∧ ¬ ((910 : Int) ≤ 915 ∧ (915 : Int) < 915)
    ∧ reachedCreation
        (newEvents World.init (NewInstance (nativeWithRevision 915) World.init).2) = true
    ∧ (NewInstance (nativeWithRevision 915) World.init).1 = (some { inst := 0 }, none)
    ∧ (NewInstance (nativeWithRevision 915) World.init).1
        ≠ (none, some (.unsupportedVersion 915)) := by
  decide

/-- C8. With the flag clear, for every native layer whose revision query
succeeds with a revision number below 910: `NewInstance` returns no value and
the unsupported-version error, its only native call is the revision query (so
`gsapi_new_instance` is not called and no handle is created), and the flag is
still false. -/
theorem below_minimum_refused (N : Native) (w : World) (rev : Revision)
    (hflag : IsInstantiated w = false) (hq : N.gsapi_revision w.trace = (0, rev))
    (hr : rev.Revision < MIN_SUPPORTED_REVISION) :
    MIN_SUPPORTED_REVISION = 910
    ∧ (NewInstance N w).1 = (none, some (.unsupportedVersion rev.Revision))
    ∧ newEvents w (NewInstance N w).2 = [.gsapi_revision 0]
    ∧ reachedCreation (newEvents w (NewInstance N w).2) = false
    ∧ liveHandles (NewInstance N w).2.trace = liveHandles w.trace
    ∧ IsInstantiated (NewInstance N w).2 = false := by
  have h' : rev.Revision < 910 ∨ rev.Revision > 915 := by
    simp only [MIN_SUPPORTED_REVISION] at hr; omega
  rw [NewInstance_of_revision N w rev hflag hq, if_pos h']
  refine ⟨rfl, rfl, ?_, ?_, ?_, hflag⟩
  · simp [newEvents, World.log]
  · simp [newEvents, World.log, reachedCreation]
  · simp [liveHandles, created, deleted, World.log]

/-- C8, at a concrete input: revision 909 at process start. -/
theorem below_minimum_refused_witness :
    IsInstantiated World.init = false
    ∧ (909 : Int) < MIN_SUPPORTED_REVISION
    ∧ (NewInstance (nativeWithRevision 909) World.init).1 =
        (none, some (.unsupportedVersion 909))
    ∧ newEvents World.init (NewInstance (nativeWithRevision 909) World.init).2 =
        [.gsapi_revision 0] :=
  have h := below_minimum_refused (nativeWithRevision 909) World.init
    { Product := "GPL Ghostscript", Copyright := "", Revision := 909, RevisionDate := 20130829 }
    rfl rfl (by decide)
  ⟨rfl, by decide, h.2.1, h.2.2.1⟩

theorem Init_instantiated (N : Native) (gs : Ghostscript) (args : List String) (w : World) :
    IsInstantiated (Init N gs args w).2 = IsInstantiated w := by
  unfold Init
  simp only [CStrings_eq, FreeCStrings_eq, Exit, World.log, IsInstantiated]
  split
  · split <;> rfl
  · split <;> rfl

theorem Exit_instantiated (N : Native) (gs : Ghostscript) (w : World) :
    IsInstantiated (Exit N gs w).2 = IsInstantiated w := by
  unfold Exit
  simp only [World.log, IsInstantiated]
  split <;> rfl

theorem Exit_fst (N : Native) (gs : Ghostscript) (w : World) :
    (Exit N gs w).1 =
      if N.gsapi_exit w.trace gs.inst < 0 then some (.exitFailed (N.gsapi_exit w.trace gs.inst))
      else none := by
  unfold Exit
  simp only [GS_NO_ERRORS]
  split <;> rfl

/-! ## The happy path (C9) -/

/-- C9. Start with the flag clear, and let the native layer report success at
every entry point: a revision query that succeeds with a revision from 910 to
915, and codes that are not negative from creation, initialization and exit
(the header's fatal threshold being negative).  Then for every argument list,
`NewInstance` returns a value and no error, `Init`, `Exit` on that value return
no error, the flag is true after `NewInstance`, after `Init` and after `Exit`,
and it is false after `Destroy`. -/
theorem happy_path_lifecycle (N : Native) (args : List String) (w : World)
    (hflag : IsInstantiated w = false)
    (hF : N.e_Fatal < 0)
    (hrev : ∀ tr, (N.gsapi_revision tr).1 = 0
      ∧ 910 ≤ (N.gsapi_revision tr).2.Revision ∧ (N.gsapi_revision tr).2.Revision ≤ 915)
    (hnew : ∀ tr, 0 ≤ N.gsapi_new_instance tr)
    (hinit : ∀ tr h a, 0 ≤ N.gsapi_init_with_args tr h a)
    (hexit : ∀ tr h, 0 ≤ N.gsapi_exit tr h) :
    ∃ gs : Ghostscript,
      (NewInstance N w).1 = (some gs, none)
      ∧ IsInstantiated (NewInstance N w).2 = true
      ∧ (Init N gs args (NewInstance N w).2).1 = none
      ∧ IsInstantiated (Init N gs args (NewInstance N w).2).2 = true
      ∧ (Exit N gs (Init N gs args (NewInstance N w).2).2).1 = none
      ∧ IsInstantiated (Exit N gs (Init N gs args (NewInstance N w).2).2).2 = true
      ∧ IsInstantiated (Destroy gs (Exit N gs (Init N gs args (NewInstance N w).2).2).2) = false := by
  have hq : N.gsapi_revision w.trace = (0, (N.gsapi_revision w.trace).2) := by
    rw [← (hrev w.trace).1]
  have hr : ¬ ((N.gsapi_revision w.trace).2.Revision < 910
      ∨ (N.gsapi_revision w.trace).2.Revision > 915) := by
    have := hrev w.trace; omega
  have hn : ¬ N.gsapi_new_instance (w.trace ++ [.gsapi_revision 0]) < 0 := by
    have := hnew (w.trace ++ [.gsapi_revision 0]); omega
  have hNew := NewInstance_of_revision N w _ hflag hq
  rw [if_neg hr, if_neg hn] at hNew
  refine ⟨{ inst := w.nextHandle }, ?_, ?_, ?_, ?_, ?_, ?_, rfl⟩
  · rw [hNew]
  · rw [hNew]; rfl
  · rw [Init_fst]
    have h0 := hinit (CStrings args (NewInstance N w).2).2.trace
      ({ inst := w.nextHandle } : Ghostscript).inst args
    have h1 : ¬ initCode N { inst := w.nextHandle } args (NewInstance N w).2 ≤ N.e_Fatal := by
      unfold initCode; omega
    have h2 : ¬ initCode N { inst := w.nextHandle } args (NewInstance N w).2 < 0 := by
      unfold initCode; omega
    rw [if_neg h1, if_neg h2]
  · rw [Init_instantiated, hNew]; rfl
  · rw [Exit_fst]
    have h0 := hexit (Init N { inst := w.nextHandle } args (NewInstance N w).2).2.trace
      ({ inst := w.nextHandle } : Ghostscript).inst
    rw [if_neg (by omega)]
  · rw [Exit_instantiated, Init_instantiated, hNew]; rfl

/-- C9, at a concrete input: the argument list of the scenario, the native
layer that reports success everywhere, the process at start. -/
theorem happy_path_lifecycle_witness :
    ∃ gs : Ghostscript,
      (NewInstance okNative World.init).1 = (some gs, none)
      ∧ IsInstantiated (NewInstance okNative World.init).2 = true
      ∧ (Init okNative gs ["ignored", "-q", "-dBATCH", "-sOutputFile=out.pdf", "in.pdf"]
          (NewInstance okNative World.init).2).1 = none
      ∧ IsInstantiated (Init okNative gs
          ["ignored", "-q", "-dBATCH", "-sOutputFile=out.pdf", "in.pdf"]
          (NewInstance okNative World.init).2).2 = true
      ∧ (Exit okNative gs (Init okNative gs
          ["ignored", "-q", "-dBATCH", "-sOutputFile=out.pdf", "in.pdf"]
          (NewInstance okNative World.init).2).2).1 = none
      ∧ IsInstantiated (Exit okNative gs (Init okNative gs
          ["ignored", "-q", "-dBATCH", "-sOutputFile=out.pdf", "in.pdf"]
          (NewInstance okNative World.init).2).2).2 = true
      ∧ IsInstantiated (Destroy gs (Exit okNative gs (Init okNative gs
          ["ignored", "-q", "-dBATCH", "-sOutputFile=out.pdf", "in.pdf"]
          (NewInstance okNative World.init).2).2).2) = false :=
  happy_path_lifecycle okNative ["ignored", "-q", "-dBATCH", "-sOutputFile=out.pdf", "in.pdf"]
    World.init rfl (by decide) (fun _ => by simp [okNative]) (fun _ => by simp [okNative])
    (fun _ _ _ => by simp [okNative]) (fun _ _ => by simp [okNative])

/-! ## The singleton invariant (C1) -/

theorem created_append (a b : List Event) : created (a ++ b) = created a ++ created b := by
  simp [created]

theorem deleted_append (a b : List Event) : deleted (a ++ b) = deleted a ++ deleted b := by
  simp [deleted]

theorem liveHandles_append_neutral (a l : List Event) (hc : created l = []) (hd : deleted l = []) :
    liveHandles (a ++ l) = liveHandles a := by
  simp [liveHandles, created_append, deleted_append, hc, hd]

/-- The three ways `NewInstance` leaves the world: untouched; with native calls
that neither create nor delete a handle; or with such calls followed by a
successful `gsapi_new_instance`, the flag set. -/
theorem NewInstance_cases (N : Native) (w : World) :
    ((NewInstance N w).2 = w)
    ∨ (∃ l, created l = [] ∧ deleted l = []
        ∧ (NewInstance N w).2 = { w with trace := w.trace ++ l })
    ∨ (w.instantiated = false ∧ ∃ l c, created l = [] ∧ deleted l = []
        ∧ (NewInstance N w).2 =
          { instantiated := true
            trace := w.trace ++ l ++ [.gsapi_new_instance c (some w.nextHandle)]
            nextHandle := w.nextHandle + 1
            nextPtr := w.nextPtr
            mem := w.mem }) := by
  by_cases hflag : w.instantiated = true
  · left; simp [NewInstance, IsInstantiated, hflag]
  · right
    have hflag' : w.instantiated = false := by simpa using hflag
    unfold NewInstance
    simp only [IsInstantiated, hflag', GetRevision, World.log, Bool.false_eq_true, if_false]
    by_cases herr : (N.gsapi_revision w.trace).1 ≠ 0
    · left
      refine ⟨[.gsapi_revision (N.gsapi_revision w.trace).1], rfl, rfl, ?_⟩
      simp [herr]
    · simp only [herr, if_false]
      by_cases hrev : (N.gsapi_revision w.trace).2.Revision < MIN_SUPPORTED_REVISION
          ∨ (N.gsapi_revision w.trace).2.Revision > MAX_SUPPORTED_REVISION
      · left
        refine ⟨[.gsapi_revision (N.gsapi_revision w.trace).1], rfl, rfl, ?_⟩
        simp [hrev]
      · simp only [hrev, if_false]
        by_cases hcode : N.gsapi_new_instance
            (w.trace ++ [.gsapi_revision (N.gsapi_revision w.trace).1]) < GS_NO_ERRORS
        · left
          refine ⟨[.gsapi_revision (N.gsapi_revision w.trace).1,
            .gsapi_new_instance (N.gsapi_new_instance
              (w.trace ++ [.gsapi_revision (N.gsapi_revision w.trace).1])) none], rfl, rfl, ?_⟩
          simp [hcode]
        · right
          refine ⟨trivial, [.gsapi_revision (N.gsapi_revision w.trace).1],
            N.gsapi_new_instance (w.trace ++ [.gsapi_revision (N.gsapi_revision w.trace).1]),
            rfl, rfl, ?_⟩
          simp [hcode, instantiate]

theorem NewInstance_deleted (N : Native) (w : World) :
    deleted (NewInstance N w).2.trace = deleted w.trace := by
  rcases NewInstance_cases N w with h | ⟨l, _, hd, h⟩ | ⟨_, l, c, _, hd, h⟩
  · rw [h]
  · rw [h]; simp [deleted_append, hd]
  · rw [h]; simp [deleted_append, hd]; rfl

theorem NewInstance_inv (N : Native) (w : World) (hinv : SingletonInv w) :
    SingletonInv (NewInstance N w).2 := by
  obtain ⟨h1, h2, h3, h4, h5⟩ := hinv
  rcases NewInstance_cases N w with h | ⟨l, hc, hd, h⟩ | ⟨hflag, l, c, hc, hd, h⟩
  · rw [h]; exact ⟨h1, h2, h3, h4, h5⟩
  · rw [h]
    refine ⟨?_, ?_, ?_, ?_, ?_⟩
    · simpa [created_append, hc] using h1
    · simpa [created_append, deleted_append, hc, hd] using h2
    · simpa [created_append, hc] using h3
    · simpa [liveHandles_append_neutral _ _ hc hd] using h4
    · simpa [liveHandles_append_neutral _ _ hc hd] using h5
  · rw [h]
    have hcr : created (w.trace ++ l ++ [.gsapi_new_instance c (some w.nextHandle)])
        = created w.trace ++ [w.nextHandle] := by
      simp [created_append, hc]; rfl
    have hdl : deleted (w.trace ++ l ++ [.gsapi_new_instance c (some w.nextHandle)])
        = deleted w.trace := by
      simp [deleted_append, hd]; rfl
    have hfresh : w.nextHandle ∉ created w.trace := fun hm => Nat.lt_irrefl _ (h1 _ hm)
    have hnd : w.nextHandle ∉ deleted w.trace := fun hm => hfresh (h2 _ hm)
    have hlive : liveHandles (w.trace ++ l ++ [.gsapi_new_instance c (some w.nextHandle)])
        = [w.nextHandle] := by
      have h0 := h5 hflag
      simp only [liveHandles] at h0 ⊢
      rw [hcr, hdl, List.filter_append, h0]
      simp [hnd]
    refine ⟨?_, ?_, ?_, ?_, ?_⟩
    · intro x hx
      simp only [hcr, List.mem_append, List.mem_singleton] at hx
      rcases hx with hx | hx
      · have := h1 x hx; simp only; omega
      · simp only; omega
    · intro x hx
      simp only [hdl] at hx
      simp only [hcr, List.mem_append]
      exact Or.inl (h2 x hx)
    · simp only [hcr]
      exact List.Nodup.append h3 (List.nodup_singleton _) (by simpa using hfresh)
    · simp only [hlive]; simp
    · intro hf; simp at hf

theorem Destroy_inv (gs : Ghostscript) (w : World) (hinv : SingletonInv w)
    (hc : gs.inst ∈ created w.trace) (hd : gs.inst ∉ deleted w.trace) :
    SingletonInv (Destroy gs w) := by
  obtain ⟨h1, h2, h3, h4, _⟩ := hinv
  have hcr : created (Destroy gs w).trace = created w.trace := by
    simp [Destroy, uninstantiate, World.log, created_append]; rfl
  have hdl : deleted (Destroy gs w).trace = deleted w.trace ++ [gs.inst] := by
    simp [Destroy, uninstantiate, World.log, deleted_append]; rfl
  have hmem : gs.inst ∈ liveHandles w.trace := by
    simp [liveHandles, hc, hd]
  have hlive : liveHandles (Destroy gs w).trace = [] := by
    have hfil : liveHandles (Destroy gs w).trace =
        (liveHandles w.trace).filter fun x => decide (x ≠ gs.inst) := by
      simp only [liveHandles, hcr, hdl, List.filter_filter]
      congr 1
      funext x
      simp [and_comm]
    rw [hfil]
    match hl : liveHandles w.trace, h4, hmem with
    | [], _, hm => simp at hm
    | [a], _, hm =>
      simp at hm
      simp [hm]
    | a :: b :: t, hlen, _ => simp at hlen
  refine ⟨?_, ?_, ?_, ?_, ?_⟩
  · rw [hcr]; exact h1
  · intro x hx
    rw [hdl] at hx
    rw [hcr]
    simp only [List.mem_append, List.mem_singleton] at hx
    rcases hx with hx | hx
    · exact h2 x hx
    · rw [hx]; exact hc
  · rw [hcr]; exact h3
  · rw [hlive]; simp
  · intro _; exact hlive

theorem runOps_inv (N : Native) (ops : List Op) :
    ∀ w : World, SingletonInv w → (destroyTargets ops).Nodup →
      (∀ h ∈ destroyTargets ops, h ∉ deleted w.trace) → SingletonInv (runOps N ops w) := by
  induction ops with
  | nil => intro w hinv _ _; exact hinv
  | cons op ops ih =>
    intro w hinv hnodup hfresh
    cases op with
    | newInstance =>
      simp only [runOps, List.foldl_cons, applyOp]
      simp only [destroyTargets] at hnodup hfresh
      apply ih _ (NewInstance_inv N w hinv) hnodup
      rw [NewInstance_deleted]
      exact hfresh
    | destroy gs =>
      simp only [runOps, List.foldl_cons, applyOp]
      simp only [destroyTargets, List.nodup_cons] at hnodup
      simp only [destroyTargets, List.mem_cons] at hfresh
      by_cases hc : gs.inst ∈ created w.trace
      · rw [if_pos hc]
        apply ih _ (Destroy_inv gs w hinv hc (hfresh _ (Or.inl rfl))) hnodup.2
        intro h hh
        have hdl : deleted (Destroy gs w).trace = deleted w.trace ++ [gs.inst] := by
          simp [Destroy, uninstantiate, World.log, deleted_append]; rfl
        rw [hdl]
        simp only [List.mem_append, List.mem_singleton, not_or]
        refine ⟨hfresh _ (Or.inr hh), ?_⟩
        intro heq
        exact hnodup.1 (heq ▸ hh)
      · rw [if_neg hc]
        exact ih _ hinv hnodup.2 (fun h hh => hfresh _ (Or.inr hh))

theorem SingletonInv_init : SingletonInv World.init := by
  simp [SingletonInv, World.init, created, deleted, liveHandles]

/-- C1, as the code has it. Starting from the initial state, after every finite
sequence of `NewInstance` and `Destroy` calls executed one at a time, where
`Destroy` is called on values returned by earlier successful `NewInstance`
calls and at most once on each value, at most one native handle has been
created and not yet deleted. -/
theorem singleton_invariant (N : Native) (ops : List Op)
    (honce : (destroyTargets ops).Nodup) :
    (liveHandles (runOps N ops World.init).trace).length ≤ 1 :=
  (runOps_inv N ops World.init SingletonInv_init honce
    (fun _ _ => by simp [World.init, deleted])).2.2.2.1

/-- C1 amended, at a concrete input: create, destroy, create, destroy, create,
each value destroyed once. -/
theorem singleton_invariant_witness :
    (destroyTargets [.newInstance, .destroy ⟨0⟩, .newInstance, .destroy ⟨1⟩, .newInstance]).Nodup
    ∧ (liveHandles (runOps okNative
        [.newInstance, .destroy ⟨0⟩, .newInstance, .destroy ⟨1⟩, .newInstance]
        World.init).trace).length ≤ 1 :=
  ⟨by decide, singleton_invariant okNative _ (by decide)⟩

/-- C1 as stated fails: create, destroy the value, create again, destroy the
first value a second time, create again.  Every `Destroy` is on the value the
first `NewInstance` returned, and in the end the handles 1 and 2 are both
created and not deleted. -/
theorem singleton_invariant_counterexample :
    (NewInstance okNative World.init).1 = (some { inst := 0 }, none)
    ∧ liveHandles (runOps okNative
        [.newInstance, .destroy ⟨0⟩, .newInstance, .destroy ⟨0⟩, .newInstance]
        World.init).trace = [1, 2]
    ∧ ¬ (liveHandles (runOps okNative
        [.newInstance, .destroy ⟨0⟩, .newInstance, .destroy ⟨0⟩, .newInstance]
        World.init).trace).length ≤ 1 := by
  decide

/-! ## Concurrent calls of NewInstance (C2) -/

/-- A goroutine that takes its four steps with no other goroutine in between
does what the function `NewInstance` does. -/
theorem NewInstance_steps_eq (N : Native) (w : World) :
    NewInstance.steps N 4 (.atCheck, w) = (.returned (NewInstance N w).1, (NewInstance N w).2) := by
  simp only [NewInstance.steps, NewInstance.step, NewInstance]
  by_cases hflag : IsInstantiated w = true
  · simp [hflag, NewInstance.step]
  · simp only [hflag, if_false, Bool.false_eq_true]
    cases herr : (GetRevision N w).1.2 with
    | some e => simp [NewInstance.step]
    | none =>
      simp only
      by_cases hrev : (GetRevision N w).1.1.Revision < MIN_SUPPORTED_REVISION
          ∨ (GetRevision N w).1.1.Revision > MAX_SUPPORTED_REVISION
      · simp [hrev, NewInstance.step]
      · simp only [hrev, if_false]
        by_cases hcode : N.gsapi_new_instance (GetRevision N w).2.trace < GS_NO_ERRORS
        · simp [hcode, NewInstance.step]
        · simp [hcode, NewInstance.step]

/-- Calls made one after the other behave as C2 says: with the flag clear and
a native layer that reports a supported revision and a successful creation, the
first `NewInstance` returns a value, and every later one, however many, is
rejected with "an instance already exists" and changes nothing. -/
theorem sequential_create_attempts (N : Native) (w : World) (rev : Revision)
    (hflag : IsInstantiated w = false) (hq : N.gsapi_revision w.trace = (0, rev))
    (hr : 910 ≤ rev.Revision ∧ rev.Revision ≤ 915)
    (hn : 0 ≤ N.gsapi_new_instance (w.trace ++ [.gsapi_revision 0])) (k : Nat) :
    (NewInstance N w).1 = (some { inst := w.nextHandle }, none)
    ∧ (fun v => (NewInstance N v).2)^[k] (NewInstance N w).2 = (NewInstance N w).2
    ∧ (NewInstance N ((fun v => (NewInstance N v).2)^[k] (NewInstance N w).2)).1
        = (none, some .alreadyExists) := by
  have hNew := NewInstance_of_revision N w rev hflag hq
  rw [if_neg (by omega), if_neg (by omega)] at hNew
  have hset : IsInstantiated (NewInstance N w).2 = true := by rw [hNew]; rfl
  have hfix : (fun v => (NewInstance N v).2)^[k] (NewInstance N w).2 = (NewInstance N w).2 := by
    induction k with
    | zero => rfl
    | succ k ih =>
      rw [Function.iterate_succ_apply, NewInstance_of_flag N _ hset]
      exact ih
  refine ⟨by rw [hNew], hfix, ?_⟩
  rw [hfix, NewInstance_of_flag N _ hset]

/-- C2 fails on the code. Two goroutines start `NewInstance` while no instance
exists and the native layer reports success everywhere.  Goroutine 0 reads the
flag, goroutine 1 reads the flag, then each runs to its return.  Both have
returned a value and no error, neither was rejected, and two native handles
are live. -/
theorem concurrent_create_race :
    (Sys.run okNative [0, 1, 0, 0, 0, 1, 1, 1] (Sys.start 2)).threads =
        [.returned (some { inst := 0 }, none), .returned (some { inst := 1 }, none)]
    ∧ ((Sys.run okNative [0, 1, 0, 0, 0, 1, 1, 1] (Sys.start 2)).threads.filter
        Pc.succeeded).length = 2
    ∧ ((Sys.run okNative [0, 1, 0, 0, 0, 1, 1, 1] (Sys.start 2)).threads.filter
        Pc.rejected).length = 0
    ∧ liveHandles (Sys.run okNative [0, 1, 0, 0, 0, 1, 1, 1] (Sys.start 2)).world.trace
        = [0, 1] := by
  decide

end GoGhostscript
